import Mathlib

/-!
Shallow embedding of the queueing and scoring core of
`enhanced_impact_tracker.py` (class `EnhancedImpactTracker` and dataclass
`QueuedPlay`), together with proofs about the embedded definitions.

Modelling conventions:
  * Python floats are modelled as rationals (`ℚ`).
  * Python `datetime` values are modelled as integers (an abstract linear
    time axis); `isoformat`, an injective textual encoding of a datetime,
    is modelled as the decimal rendering of that integer.
  * A Python dict key read with `d.get(k, default)` is modelled as an
    `Option` field read with `Option.getD`.
  * The Python substring test `needle in haystack` on strings is modelled
    as list-infix containment on the underlying character lists.
  * `set` objects are modelled as duplicate-free lists; only membership,
    cardinality and the slice taken by the cleanup code are relied upon.
  * Network reads, the wall clock and filesystem results are passed in as
    explicit arguments; logging-only reads of the play dict are omitted.
-/

/-- Python substring test `needle in hay` (both already strings). -/
def containsSub (needle hay : List Char) : Bool :=
  decide (needle <:+: hay)

/-- Python3 `round` to an integer: round half to even (bankers rounding). -/
def roundHalfEven (x : ℚ) : ℤ :=
  if x - ⌊x⌋ < 1/2 then ⌊x⌋
  else if x - ⌊x⌋ > 1/2 then ⌊x⌋ + 1
  else if ⌊x⌋ % 2 = 0 then ⌊x⌋ else ⌊x⌋ + 1

/-- Python `round(x, 4)`: round to four decimal places. -/
def round4 (x : ℚ) : ℚ :=
  (roundHalfEven (x * 10000) : ℚ) / 10000

/-- The play dict consumed by `calculate_impact_score` and
`queue_high_impact_play`.  Keys that the source reads with `.get` are
`Option` fields; `game_id` and `play_id` are always indexed directly
(`play[...]`) so they are required.  `inning` and `half_inning` are indexed
directly when the composite id is built but read with `.get` elsewhere; we
keep them optional and note that the enqueue path assumes them present. -/
structure Play where
  game_id : Int
  play_id : String
  inning : Option Int
  half_inning : Option String
  delta_home_win_exp : Option ℚ
  wpa : Option ℚ
  leverage_index : Option ℚ
  event : Option String
  description : Option String
  batter : Option String
  pitcher : Option String
  home_score : Option Int
  away_score : Option Int
  test_date : Option String
  play_data : Option (List (String × String))
deriving DecidableEq, Repr

/-- The `estimated_wp_change` if/elif chain of
`EnhancedImpactTracker.calculate_impact_score` (source lines 586 to 606),
evaluated on the lower-cased event string. -/
def estimatedWpChange (event : List Char) (inning : Int) (leverage : ℚ) : ℚ :=
  if containsSub "home_run".data event then
    (if inning ≥ 9 then 0.25 * leverage else 0.15 * leverage)
  else if containsSub "triple".data event then 0.12 * leverage
  else if containsSub "double".data event then 0.08 * leverage
  else if containsSub "single".data event then 0.06 * leverage
  else if containsSub "walk".data event || containsSub "base_on_balls".data event then
    0.04 * leverage
  else if containsSub "strikeout".data event then -0.05 * leverage
  else if containsSub "out".data event then -0.03 * leverage
  else if containsSub "walk_off".data event || containsSub "walkoff".data event then
    0.50
  else if containsSub "grand_slam".data event then 0.40 * leverage
  else 0

/-- Model of `EnhancedImpactTracker.calculate_impact_score`: prefer the Baseball
Savant `delta_home_win_exp` field, fall back to `wpa`, else estimate from
the event type, leverage and inning.  The two reads of
`win_probability_home` and `win_probability_away` in the source are used
only for a debug log and are omitted.  The `except` handler that returns
`0.0` is unreachable in the pure model. -/
def calculate_impact_score (play : Play) : ℚ :=
  let delta := play.delta_home_win_exp.getD 0
  if delta ≠ 0 then |delta|
  else
    let wpa := play.wpa.getD 0
    if wpa ≠ 0 then |wpa|
    else
      let leverage := play.leverage_index.getD 1
      let inning := play.inning.getD 1
      let event := (play.event.getD "").data.map Char.toLower
      let estimated := estimatedWpChange event inning leverage
      let amplified :=
        if inning ≥ 9 then estimated * 1.5
        else if inning ≥ 7 then estimated * 1.2
        else estimated
      round4 |amplified|

/-- Model of `EnhancedImpactTracker.is_high_impact_play`: the marquee filter. -/
def is_high_impact_play (impact_score : ℚ) (leverage : ℚ) : Bool :=
  if impact_score ≥ 0.40 then true
  else if impact_score ≥ 0.30 ∧ leverage ≥ 3.0 then true
  else if impact_score ≥ 0.25 ∧ leverage ≥ 2.5 then true
  else false

/-- The `QueuedPlay` dataclass. -/
structure QueuedPlay where
  play_id : String
  game_id : Int
  game_date : String
  impact_score : ℚ
  wpa : ℚ
  description : String
  event : String
  batter : String
  pitcher : String
  inning : Int
  half_inning : String
  home_team : String
  away_team : String
  home_score : Int
  away_score : Int
  leverage_index : ℚ
  timestamp : Int
  mlb_play_data : List (String × String)
  game_info : List (String × String)
  gif_attempts : Nat
  max_attempts : Nat
  last_attempt : Option Int
  gif_created : Bool
  tweet_posted : Bool
  gif_path : Option String
deriving DecidableEq, Repr

/-- The tracker state touched by the queueing operations: `self.play_queue`
and `self.processed_plays` (the latter a Python set, modelled as a
duplicate-free list). -/
structure TrackerState where
  play_queue : List QueuedPlay
  processed_plays : List String
deriving DecidableEq, Repr

/-- Constant `self.max_queue_size = 10`. -/
def max_queue_size : Nat := 10

/-- Constant `self.max_processed_plays = 100`. -/
def max_processed_plays : Nat := 100

/-- The composite play identifier built at the top of
`queue_high_impact_play`; the source indexes all four keys directly. -/
def compositeId (play : Play) : String :=
  toString play.game_id ++ "_" ++ play.play_id ++ "_" ++
    toString (play.inning.getD 1) ++ "_" ++ (play.half_inning.getD "")

/-- Python `d.get(k, default)` on a string-valued dict. -/
def dictGet (d : List (String × String)) (k : String) (dflt : String) : String :=
  match d.find? (fun kv => kv.1 == k) with
  | some kv => kv.2
  | none => dflt

/-- Resolution of `actual_game_date` inside `queue_high_impact_play`:
the `test_date` key wins, else a non-empty date fetched from the MLB API
(passed in here as `apiDate`, since it is a network read), else the
current date. -/
def resolveGameDate (play : Play) (apiDate : Option String) (nowDate : String) : String :=
  match play.test_date with
  | some d => d
  | none =>
    match apiDate with
    | some d => if d = "" then nowDate else d
    | none => nowDate

/-- Python `min(l, key=lambda x: x.timestamp)`: first element with minimal
timestamp; `none` on the empty list (where Python would raise). -/
def minByTimestamp (l : List QueuedPlay) : Option QueuedPlay :=
  match l with
  | [] => none
  | x :: xs => some (xs.foldl (fun acc p => if p.timestamp < acc.timestamp then p else acc) x)

/-- The capacity check of `queue_high_impact_play` (source lines 652 to
669): at capacity, drop the oldest completed play, else the oldest play
whose attempts are exhausted, else report that the enqueue must be
refused (`none`). -/
def evictForCapacity (queue : List QueuedPlay) : Option (List QueuedPlay) :=
  if queue.length ≥ max_queue_size then
    match minByTimestamp (queue.filter (fun p => p.tweet_posted)) with
    | some oldest => some (queue.erase oldest)
    | none =>
      match minByTimestamp (queue.filter (fun p => p.gif_attempts ≥ p.max_attempts)) with
      | some oldest => some (queue.erase oldest)
      | none => none
  else some queue

/-- Model of `EnhancedImpactTracker.queue_high_impact_play` (source lines 643 to
744).  External inputs are explicit: `apiDate`/`nowDate` feed the game-date
resolution and `now` is `datetime.now()`.  Returns the Python return value
paired with the successor state.  The daily counter and the `save_queue`
disk write are not part of the modelled state. -/
def queue_high_impact_play (st : TrackerState) (play : Play)
    (game_info : List (String × String)) (impact_score : ℚ)
    (apiDate : Option String) (nowDate : String) (now : Int) :
    Bool × TrackerState :=
  let pid := compositeId play
  if st.processed_plays.contains pid then (false, st)
  else
    match evictForCapacity st.play_queue with
    | none => (false, st)
    | some queue1 =>
      let processed1 :=
        if st.processed_plays.length ≥ max_processed_plays then
          st.processed_plays.drop 20
        else st.processed_plays
      let qp : QueuedPlay :=
        { play_id := pid
          game_id := play.game_id
          game_date := resolveGameDate play apiDate nowDate
          impact_score := impact_score
          wpa := play.wpa.getD 0
          description := play.description.getD ""
          event := play.event.getD ""
          batter := play.batter.getD ""
          pitcher := play.pitcher.getD ""
          inning := play.inning.getD 0
          half_inning := play.half_inning.getD ""
          home_team := dictGet game_info "home_team" "HOME"
          away_team := dictGet game_info "away_team" "AWAY"
          home_score := play.home_score.getD 0
          away_score := play.away_score.getD 0
          leverage_index := play.leverage_index.getD 1
          timestamp := now
          mlb_play_data := play.play_data.getD []
          game_info := game_info
          gif_attempts := 0
          max_attempts := 5
          last_attempt := none
          gif_created := false
          tweet_posted := false
          gif_path := none }
      (true,
        { play_queue := queue1 ++ [qp]
          processed_plays :=
            if processed1.contains pid then processed1 else processed1 ++ [pid] })

/-- One enqueue request: the play together with the external inputs of a
single `queue_high_impact_play` call. -/
structure EnqueueInput where
  play : Play
  game_info : List (String × String)
  impact_score : ℚ
  apiDate : Option String
  nowDate : String
  now : Int

/-- A sequence of `queue_high_impact_play` calls, keeping only the state. -/
def runEnqueues (st : TrackerState) (inputs : List EnqueueInput) : TrackerState :=
  inputs.foldl
    (fun s i =>
      (queue_high_impact_play s i.play i.game_info i.impact_score i.apiDate i.nowDate i.now).2)
    st

/-- One `process_gif_queue` cycle restricted to a single queued item
(source lines 820 to 896): published items, items attempted within the
300 second cooldown and items whose attempts are exhausted are skipped
without mutation; otherwise the attempt counter and timestamp are bumped
and the externally determined GIF/post outcomes (`gifOk`, `postOk`) are
applied.  The returned Bool records whether a GIF attempt was made. -/
def process_queue_item (item : QueuedPlay) (now : Int) (gifOk : Bool)
    (gifPath : String) (postOk : Bool) : QueuedPlay × Bool :=
  if item.tweet_posted then (item, false)
  else if (match item.last_attempt with
           | some t => decide (now - t < 300)
           | none => false) then (item, false)
  else if item.gif_attempts ≥ item.max_attempts then (item, false)
  else
    let item1 := { item with gif_attempts := item.gif_attempts + 1, last_attempt := some now }
    if gifOk then
      let item2 := { item1 with gif_created := true, gif_path := some gifPath }
      if postOk then ({ item2 with tweet_posted := true }, true)
      else (item2, true)
    else (item1, true)

/-- The external inputs of one Enricher cycle for one item. -/
structure CycleInput where
  now : Int
  gifOk : Bool
  gifPath : String
  postOk : Bool

/-- Iterated Enricher cycles on a single queued item. -/
def runCycles (item : QueuedPlay) (cycles : List CycleInput) : QueuedPlay :=
  cycles.foldl (fun it c => (process_queue_item it c.now c.gifOk c.gifPath c.postOk).1) item

/-- Model of `datetime.isoformat`: an injective textual encoding of a datetime,
modelled as the decimal rendering of the integer time value. -/
def datetimeIsoformat (t : Int) : String := toString t

/-- Model of `datetime.fromisoformat`, applied only to `isoformat` output. -/
def datetimeFromIsoformat (s : String) : Int := s.toInt?.getD 0

/-- The JSON-style dict produced by `QueuedPlay.to_dict`: every field of
the dataclass, with the two datetime fields rendered as strings. -/
structure QueuedPlayDict where
  play_id : String
  game_id : Int
  game_date : String
  impact_score : ℚ
  wpa : ℚ
  description : String
  event : String
  batter : String
  pitcher : String
  inning : Int
  half_inning : String
  home_team : String
  away_team : String
  home_score : Int
  away_score : Int
  leverage_index : ℚ
  timestamp : String
  mlb_play_data : List (String × String)
  game_info : List (String × String)
  gif_attempts : Nat
  max_attempts : Nat
  last_attempt : Option String
  gif_created : Bool
  tweet_posted : Bool
  gif_path : Option String
deriving DecidableEq, Repr

/-- Model of the Python `to_dict` method: `asdict(self)` with `timestamp` and
`last_attempt` replaced by their isoformat strings (`None` stays `None`). -/
def QueuedPlay.to_dict (p : QueuedPlay) : QueuedPlayDict :=
  { play_id := p.play_id
    game_id := p.game_id
    game_date := p.game_date
    impact_score := p.impact_score
    wpa := p.wpa
    description := p.description
    event := p.event
    batter := p.batter
    pitcher := p.pitcher
    inning := p.inning
    half_inning := p.half_inning
    home_team := p.home_team
    away_team := p.away_team
    home_score := p.home_score
    away_score := p.away_score
    leverage_index := p.leverage_index
    timestamp := datetimeIsoformat p.timestamp
    mlb_play_data := p.mlb_play_data
    game_info := p.game_info
    gif_attempts := p.gif_attempts
    max_attempts := p.max_attempts
    last_attempt := p.last_attempt.map datetimeIsoformat
    gif_created := p.gif_created
    tweet_posted := p.tweet_posted
    gif_path := p.gif_path }

/-- Model of the Python `from_dict` classmethod: parse the two datetime strings back (a falsy
`last_attempt`, that is `None` or the empty string, is left unparsed and
modelled as `none`). -/
def QueuedPlay.from_dict (d : QueuedPlayDict) : QueuedPlay :=
  { play_id := d.play_id
    game_id := d.game_id
    game_date := d.game_date
    impact_score := d.impact_score
    wpa := d.wpa
    description := d.description
    event := d.event
    batter := d.batter
    pitcher := d.pitcher
    inning := d.inning
    half_inning := d.half_inning
    home_team := d.home_team
    away_team := d.away_team
    home_score := d.home_score
    away_score := d.away_score
    leverage_index := d.leverage_index
    timestamp := datetimeFromIsoformat d.timestamp
    mlb_play_data := d.mlb_play_data
    game_info := d.game_info
    gif_attempts := d.gif_attempts
    max_attempts := d.max_attempts
    last_attempt :=
      match d.last_attempt with
      | some s => if s = "" then none else some (datetimeFromIsoformat s)
      | none => none
    gif_created := d.gif_created
    tweet_posted := d.tweet_posted
    gif_path := d.gif_path }

/-- The pickled blob written by `EnhancedImpactTracker.save_queue`. -/
structure SavedData where
  queue : List QueuedPlayDict
  processed_plays : List String
  saved_at : String
deriving DecidableEq, Repr

/-- Model of `EnhancedImpactTracker.save_queue` (the data built for `pickle.dump`). -/
def save_queue (st : TrackerState) (nowIso : String) : SavedData :=
  { queue := st.play_queue.map QueuedPlay.to_dict
    processed_plays := st.processed_plays
    saved_at := nowIso }

/-- Model of `EnhancedImpactTracker.load_queue` on an existing, readable file. -/
def load_queue (d : SavedData) : TrackerState :=
  { play_queue := d.queue.map QueuedPlay.from_dict
    processed_plays := d.processed_plays }

/-! Concrete inputs used by scenario theorems and counterexamples. -/

/-- A ninth-inning home run with leverage 3.5 and neither probability
field set (the scenario of the spec). -/
def homeRunNinthPlay : Play :=
  { game_id := 1
    play_id := "hr9"
    inning := some 9
    half_inning := some "bottom"
    delta_home_win_exp := none
    wpa := none
    leverage_index := some 3.5
    event := some "home_run"
    description := none
    batter := none
    pitcher := none
    home_score := none
    away_score := none
    test_date := none
    play_data := none }

/-- A first-inning play whose event string is `walk_off_home_run`, with
neutral leverage and neither probability field set. -/
def walkOffHomeRunPlay : Play :=
  { game_id := 2
    play_id := "wohr"
    inning := some 1
    half_inning := some "top"
    delta_home_win_exp := none
    wpa := none
    leverage_index := some 1
    event := some "walk_off_home_run"
    description := none
    batter := none
    pitcher := none
    home_score := none
    away_score := none
    test_date := none
    play_data := none }

/-- A minimal play with composite id `1_a_1_top`. -/
def playA : Play :=
  { game_id := 1
    play_id := "a"
    inning := some 1
    half_inning := some "top"
    delta_home_win_exp := none
    wpa := none
    leverage_index := none
    event := none
    description := none
    batter := none
    pitcher := none
    home_score := none
    away_score := none
    test_date := none
    play_data := none }

/-- A second play, distinct from `playA`, with composite id `2_b_1_top`. -/
def playB : Play :=
  { playA with game_id := 2, play_id := "b" }

/-- Ninety-nine distinct filler identifiers for the processed-set. -/
def otherIds : List String :=
  (List.range 99).map (fun i => "x" ++ toString i)

/-- A state whose processed-set is exactly at the `max_processed_plays`
cap and contains the composite id of `playA` in the slice that the next
cleanup evicts. -/
def stFullProcessed : TrackerState :=
  { play_queue := []
    processed_plays := compositeId playA :: otherIds }

/-- A state that already remembers `playA` in its processed-set. -/
def stRemembersA : TrackerState :=
  { play_queue := []
    processed_plays := [compositeId playA] }

/-- A queued item that is neither published nor out of attempts. -/
def pendingItem : QueuedPlay :=
  { play_id := "q"
    game_id := 1
    game_date := "2025-07-01"
    impact_score := 0.5
    wpa := 0
    description := ""
    event := "home_run"
    batter := ""
    pitcher := ""
    inning := 9
    half_inning := "bottom"
    home_team := "HOME"
    away_team := "AWAY"
    home_score := 0
    away_score := 0
    leverage_index := 1
    timestamp := 0
    mlb_play_data := []
    game_info := []
    gif_attempts := 0
    max_attempts := 5
    last_attempt := none
    gif_created := false
    tweet_posted := false
    gif_path := none }

/-- A queued item whose attempt counter has reached its maximum. -/
def exhaustedItem : QueuedPlay :=
  { pendingItem with gif_attempts := 5 }

/-- A full queue of pending items: nothing is completed and nothing has
exhausted its attempts, so nothing is evictable. -/
def stFullPending : TrackerState :=
  { play_queue := List.replicate 10 pendingItem
    processed_plays := [] }

/-- A single sample enqueue request. -/
def sampleEnqueue : EnqueueInput :=
  { play := playA
    game_info := []
    impact_score := 0.5
    apiDate := none
    nowDate := "2025-07-01"
    now := 0 }

/-- A single sample Enricher cycle whose GIF attempt fails. -/
def sampleCycle : CycleInput :=
  { now := 1000
    gifOk := false
    gifPath := "out.gif"
    postOk := false }

/-! Helper lemmas. -/

/-- Rounding an integer value returns that integer. -/
lemma roundHalfEven_intCast (n : ℤ) : roundHalfEven ((n : ℚ)) = n := by
  unfold roundHalfEven
  rw [Int.floor_intCast]
  norm_num

/-- Evaluation rule for `round4` when the scaled value is an integer. -/
lemma round4_eq_of_mul (x : ℚ) (n : ℤ) (h : x * 10000 = (n : ℚ)) :
    round4 x = (n : ℚ) / 10000 := by
  rw [round4, h, roundHalfEven_intCast]

/-- Lemma: `roundHalfEven` sends non-negative inputs to non-negative integers. -/
lemma roundHalfEven_nonneg (x : ℚ) (hx : 0 ≤ x) : 0 ≤ roundHalfEven x := by
  have hf : (0 : ℤ) ≤ ⌊x⌋ := Int.floor_nonneg.mpr hx
  unfold roundHalfEven
  split_ifs <;> omega

/-- Lemma: `round4` sends non-negative inputs to non-negative rationals. -/
lemma round4_nonneg (x : ℚ) (hx : 0 ≤ x) : 0 ≤ round4 x := by
  rw [round4]
  have h := roundHalfEven_nonneg (x * 10000) (by positivity)
  have h2 : (0 : ℚ) ≤ (roundHalfEven (x * 10000) : ℚ) := by exact_mod_cast h
  exact div_nonneg h2 (by norm_num)

/-- Lemma: `containsSub` agrees with list-infix containment. -/
lemma containsSub_iff (n h : List Char) : containsSub n h = true ↔ n <:+: h := by
  simp [containsSub]

/-- A string containing `walk_off` contains `walk`. -/
lemma walk_of_walk_off (s : List Char) (h : containsSub "walk_off".data s = true) :
    containsSub "walk".data s = true := by
  rw [containsSub_iff] at h ⊢
  exact List.IsInfix.trans (by decide) h

/-- A string containing `walkoff` contains `walk`. -/
lemma walk_of_walkoff (s : List Char) (h : containsSub "walkoff".data s = true) :
    containsSub "walk".data s = true := by
  rw [containsSub_iff] at h ⊢
  exact List.IsInfix.trans (by decide) h

/-- Evaluation of the scorer on the ninth-inning home-run scenario play. -/
lemma calc_homeRunNinth_eval : calculate_impact_score homeRunNinthPlay = 21/16 := by
  have e1 : containsSub "home_run".data ("home_run".data.map Char.toLower) = true := by decide
  have h4 : round4 ((21 : ℚ)/16) = ((13125 : ℤ) : ℚ) / 10000 :=
    round4_eq_of_mul _ _ (by norm_num)
  simp only [calculate_impact_score, homeRunNinthPlay, Option.getD_some, Option.getD_none,
    estimatedWpChange, e1, if_true, if_pos]
  norm_num
  rw [show |(21 : ℚ)/16| = 21/16 from abs_of_nonneg (by norm_num), h4]
  norm_num

/-- Evaluation of the scorer on the `walk_off_home_run` play: the
`home_run` branch fires, giving `0.15 x leverage`. -/
lemma calc_walkOffHomeRun_eval : calculate_impact_score walkOffHomeRunPlay = 3/20 := by
  have e1 : containsSub "home_run".data ("walk_off_home_run".data.map Char.toLower) = true := by
    decide
  have h4 : round4 ((3 : ℚ)/20) = ((1500 : ℤ) : ℚ) / 10000 :=
    round4_eq_of_mul _ _ (by norm_num)
  simp only [calculate_impact_score, walkOffHomeRunPlay, Option.getD_some, Option.getD_none,
    estimatedWpChange, e1, if_true, if_pos]
  norm_num
  rw [show |(3 : ℚ)/20| = 3/20 from abs_of_nonneg (by norm_num), h4]
  norm_num

/-! Claim theorems. -/

/-- Claim C1 (amended): `calculate_impact_score` returns a non-negative
impact magnitude on every path (direct delta, WPA fallback, heuristic
fallback); the upper bound 1 claimed by the spec does not hold. -/
theorem calculate_impact_score_nonneg (play : Play) :
    0 ≤ calculate_impact_score play := by
  simp only [calculate_impact_score]
  split_ifs <;> first
    | exact abs_nonneg _
    | exact round4_nonneg _ (abs_nonneg _)

/-- Claim C1 (counterexample): on the ninth-inning home run with leverage
3.5 and no direct probability field, the heuristic path returns
`0.25 x 3.5 x 1.5 = 1.3125`, which is greater than 1, so the score is not
confined to the interval `[0, 1]`. -/
theorem calculate_impact_score_exceeds_one :
    calculate_impact_score homeRunNinthPlay = 21/16 ∧
    ¬ (calculate_impact_score homeRunNinthPlay ≤ 1) := by
  refine ⟨calc_homeRunNinth_eval, ?_⟩
  rw [calc_homeRunNinth_eval]
  norm_num

/-- Claim C9: on the ninth-inning home run with leverage 3.5 and no
direct probability field, the heuristic gives
`base(home_run, late) x 3.5 x 1.5 = 0.25 x 3.5 x 1.5`, and the filter
classifies that score as marquee. -/
theorem home_run_ninth_inning_scenario :
    calculate_impact_score homeRunNinthPlay = 0.25 * 3.5 * 1.5 ∧
    is_high_impact_play (calculate_impact_score homeRunNinthPlay) 3.5 = true := by
  constructor
  · rw [calc_homeRunNinth_eval]; norm_num
  · rw [calc_homeRunNinth_eval, is_high_impact_play, if_pos (by norm_num)]

/-- Claim C4: the filter is exactly the ordered first-match rule
(score at least 0.40; else score at least 0.30 with leverage at least 3.0;
else score at least 0.25 with leverage at least 2.5; else false), and in
particular every score of at least 0.40 passes for every leverage. -/
theorem filter_first_match_rule (s l : ℚ) :
    (is_high_impact_play s l = true ↔
      (s ≥ 0.40 ∨ (s ≥ 0.30 ∧ l ≥ 3.0) ∨ (s ≥ 0.25 ∧ l ≥ 2.5))) ∧
    (s ≥ 0.40 → is_high_impact_play s l = true) := by
  constructor
  · rw [is_high_impact_play]
    split_ifs with h1 h2 h3 <;> simp_all
  · intro h
    rw [is_high_impact_play, if_pos h]

/-- Claim C4 (witness): the rule instantiated at score 0.5, leverage 0. -/
theorem filter_first_match_rule_witness :
    (is_high_impact_play 0.5 0 = true ↔
      ((0.5 : ℚ) ≥ 0.40 ∨ ((0.5 : ℚ) ≥ 0.30 ∧ (0 : ℚ) ≥ 3.0) ∨
       ((0.5 : ℚ) ≥ 0.25 ∧ (0 : ℚ) ≥ 2.5))) ∧
    is_high_impact_play 0.5 0 = true :=
  ⟨(filter_first_match_rule 0.5 0).1,
   (filter_first_match_rule 0.5 0).2 (by norm_num)⟩

/-- Claim C3 (counterexample): the score 0.30 lies in `[0.30, 0.40)` and
the leverage 2.5 is below 3.0, yet the filter returns true (the tertiary
rule fires), contradicting the claim that leverage below 3.0 gives
false on this score band. -/
theorem filter_true_at_leverage_below_three :
    ((0.30 : ℚ) ≤ 0.30 ∧ (0.30 : ℚ) < 0.40 ∧ (2.5 : ℚ) < 3.0) ∧
    is_high_impact_play 0.30 2.5 = true := by
  constructor
  · norm_num
  · rw [is_high_impact_play, if_neg (by norm_num), if_neg (by norm_num),
      if_pos (by norm_num)]

/-- Claim C3 (amended): for scores in `[0.30, 0.40)`, leverage at least
3.0 passes; moreover any leverage at least 2.5 passes (through the
tertiary rule), and leverage below 2.5 is rejected. -/
theorem filter_band_30_40 (s l : ℚ) (h1 : s ≥ 0.30) (h2 : s < 0.40) :
    (l ≥ 3.0 → is_high_impact_play s l = true) ∧
    (l ≥ 2.5 → is_high_impact_play s l = true) ∧
    (l < 2.5 → is_high_impact_play s l = false) := by
  have hno : ¬ (s ≥ 0.40) := not_le.mpr h2
  refine ⟨?_, ?_, ?_⟩ <;> intro hl
  · rw [is_high_impact_play, if_neg hno, if_pos ⟨h1, hl⟩]
  · by_cases hb : l ≥ 3.0
    · rw [is_high_impact_play, if_neg hno, if_pos ⟨h1, hb⟩]
    · rw [is_high_impact_play, if_neg hno, if_neg (fun hc => hb hc.2),
        if_pos ⟨le_trans (by norm_num) h1, hl⟩]
  · rw [is_high_impact_play, if_neg hno,
      if_neg (fun hc => absurd hc.2 (not_le.mpr (by linarith))),
      if_neg (fun hc => absurd hc.2 (not_le.mpr hl))]

/-- Claim C3 (amended, witness): instantiated at score 0.35 with the three
leverage values 3.0, 2.5 and 2.4. -/
theorem filter_band_30_40_witness :
    ((0.35 : ℚ) ≥ 0.30 ∧ (0.35 : ℚ) < 0.40) ∧
    is_high_impact_play 0.35 3.0 = true ∧
    is_high_impact_play 0.35 2.5 = true ∧
    is_high_impact_play 0.35 2.4 = false :=
  ⟨⟨by norm_num, by norm_num⟩,
   (filter_band_30_40 0.35 3.0 (by norm_num) (by norm_num)).1 (by norm_num),
   (filter_band_30_40 0.35 2.5 (by norm_num) (by norm_num)).2.1 (by norm_num),
   (filter_band_30_40 0.35 2.4 (by norm_num) (by norm_num)).2.2 (by norm_num)⟩

/-- Claim C10 (counterexample): the event string `walk_off_home_run`
contains `walk_off`, yet the play is scored on the home-run base rate
(`0.15 x leverage = 0.15`), not on the walk base rate
(`0.04 x leverage = 0.04`), because the `home_run` branch matches first. -/
theorem walk_off_home_run_not_walk_rate :
    containsSub "walk_off".data "walk_off_home_run".data = true ∧
    calculate_impact_score walkOffHomeRunPlay = 3/20 ∧
    (3/20 : ℚ) ≠ 0.04 * 1 := by
  refine ⟨by decide, calc_walkOffHomeRun_eval, by norm_num⟩

/-- Claim C10 (amended): the walk-off branch of the heuristic chain is
unreachable: every event containing `walk_off` or `walkoff` also contains
`walk`, so one of the earlier branches (`home_run`, `triple`, `double`,
`single`, or the `walk` branch) matches first and the 0.50 estimate is
never used; when none of the four earlier substrings occur, the play is
scored on the walk base rate `0.04 x leverage`. -/
theorem walk_off_branch_unreachable (ev : List Char) (inning : Int) (lev : ℚ)
    (h : (containsSub "walk_off".data ev || containsSub "walkoff".data ev) = true) :
    containsSub "walk".data ev = true ∧
    (containsSub "home_run".data ev = false →
     containsSub "triple".data ev = false →
     containsSub "double".data ev = false →
     containsSub "single".data ev = false →
     estimatedWpChange ev inning lev = 0.04 * lev) := by
  have hw : containsSub "walk".data ev = true := by
    rcases Bool.or_eq_true_iff.mp h with h1 | h1
    · exact walk_of_walk_off ev h1
    · exact walk_of_walkoff ev h1
  refine ⟨hw, ?_⟩
  intro h1 h2 h3 h4
  simp [estimatedWpChange, h1, h2, h3, h4, hw]

/-- Claim C10 (amended, witness): instantiated on the literal event
`walk_off`, inning 1, leverage 2. -/
theorem walk_off_branch_unreachable_witness :
    (containsSub "walk_off".data "walk_off".data ||
      containsSub "walkoff".data "walk_off".data) = true ∧
    containsSub "walk".data "walk_off".data = true ∧
    estimatedWpChange "walk_off".data 1 2 = 0.04 * 2 :=
  ⟨by decide,
   (walk_off_branch_unreachable "walk_off".data 1 2 (by decide)).1,
   (walk_off_branch_unreachable "walk_off".data 1 2 (by decide)).2
     (by decide) (by decide) (by decide) (by decide)⟩

/-- The fold inside `minByTimestamp` returns its seed or a list element. -/
lemma foldl_minBy_mem (xs : List QueuedPlay) :
    ∀ a : QueuedPlay,
      xs.foldl (fun acc p => if p.timestamp < acc.timestamp then p else acc) a = a ∨
      xs.foldl (fun acc p => if p.timestamp < acc.timestamp then p else acc) a ∈ xs := by
  induction xs with
  | nil => intro a; left; rfl
  | cons x xs ih =>
    intro a
    rw [List.foldl_cons]
    rcases ih (if x.timestamp < a.timestamp then x else a) with h | h
    · by_cases hc : x.timestamp < a.timestamp
      · right; rw [h, if_pos hc]; exact List.mem_cons_self x xs
      · left; rw [h, if_neg hc]
    · right; exact List.mem_cons_of_mem _ h

/-- Lemma: `minByTimestamp` returns an element of the list. -/
lemma minByTimestamp_mem (l : List QueuedPlay) (x : QueuedPlay)
    (h : minByTimestamp l = some x) : x ∈ l := by
  match l with
  | [] => simp [minByTimestamp] at h
  | a :: as =>
    simp only [minByTimestamp, Option.some.injEq] at h
    rcases foldl_minBy_mem as a with h2 | h2
    · rw [h2] at h; rw [← h]; exact List.mem_cons_self a as
    · rw [← h]; exact List.mem_cons_of_mem _ h2

/-- A successful capacity eviction leaves strict room for one element. -/
lemma evictForCapacity_length (q q1 : List QueuedPlay)
    (h : evictForCapacity q = some q1) (hq : q.length ≤ max_queue_size) :
    q1.length + 1 ≤ max_queue_size := by
  unfold evictForCapacity at h
  by_cases hc : q.length ≥ max_queue_size
  · rw [if_pos hc] at h
    cases hm : minByTimestamp (q.filter (fun p => p.tweet_posted)) with
    | some oldest =>
      rw [hm] at h
      have hmem : oldest ∈ q := List.mem_of_mem_filter (minByTimestamp_mem _ _ hm)
      have hlen := List.length_erase_of_mem hmem
      obtain rfl : q.erase oldest = q1 := Option.some_inj.mp h
      have hpos : 1 ≤ q.length := le_trans (by norm_num [max_queue_size]) hc
      omega
    | none =>
      rw [hm] at h
      cases hm2 : minByTimestamp (q.filter (fun p => p.gif_attempts ≥ p.max_attempts)) with
      | some oldest =>
        rw [hm2] at h
        have hmem : oldest ∈ q := List.mem_of_mem_filter (minByTimestamp_mem _ _ hm2)
        have hlen := List.length_erase_of_mem hmem
        obtain rfl : q.erase oldest = q1 := Option.some_inj.mp h
        have hpos : 1 ≤ q.length := le_trans (by norm_num [max_queue_size]) hc
        omega
      | none => rw [hm2] at h; exact absurd h (by simp)
  · rw [if_neg hc] at h
    obtain rfl : q = q1 := Option.some_inj.mp h
    omega

/-- One enqueue call keeps the queue within its capacity. -/
lemma enqueue_step_bound (st : TrackerState) (play : Play)
    (gi : List (String × String)) (score : ℚ) (ad : Option String)
    (nd : String) (now : Int)
    (hlen : st.play_queue.length ≤ max_queue_size) :
    ((queue_high_impact_play st play gi score ad nd now).2).play_queue.length ≤
      max_queue_size := by
  simp only [queue_high_impact_play]
  split
  · exact hlen
  · split
    · exact hlen
    next q1 heq =>
      simp only [List.length_append, List.length_cons, List.length_nil]
      have := evictForCapacity_length st.play_queue q1 heq hlen
      omega

/-- Claim C5: starting from a queue within the configured capacity
(`max_queue_size = 10`), no sequence of `queue_high_impact_play` calls
ever pushes the queue past that capacity: at capacity the call either
evicts one item before appending or refuses the enqueue. -/
theorem queue_length_bounded (st : TrackerState) (inputs : List EnqueueInput)
    (h : st.play_queue.length ≤ max_queue_size) :
    (runEnqueues st inputs).play_queue.length ≤ max_queue_size := by
  induction inputs generalizing st with
  | nil => exact h
  | cons i is ih =>
    simp only [runEnqueues, List.foldl_cons]
    exact ih _ (enqueue_step_bound st i.play i.game_info i.impact_score
      i.apiDate i.nowDate i.now h)

/-- Claim C5 (witness): one enqueue from the empty state stays within
capacity. -/
theorem queue_length_bounded_witness :
    (TrackerState.mk [] []).play_queue.length ≤ max_queue_size ∧
    (runEnqueues ⟨[], []⟩ [sampleEnqueue]).play_queue.length ≤ max_queue_size :=
  ⟨by decide, queue_length_bounded ⟨[], []⟩ [sampleEnqueue] (by decide)⟩

/-- Claim C2 (amended): while a composite play identifier is in the
processed-set, `queue_high_impact_play` for that identifier returns
failure and leaves the state unchanged; but identifiers do not stay in
the set for the whole process lifetime, because a batch of 20 entries is
evicted whenever the set reaches `max_processed_plays = 100`. -/
theorem queue_rejects_processed_id (st : TrackerState) (play : Play)
    (gi : List (String × String)) (score : ℚ) (ad : Option String)
    (nd : String) (now : Int)
    (h : st.processed_plays.contains (compositeId play) = true) :
    queue_high_impact_play st play gi score ad nd now = (false, st) := by
  have hmem : compositeId play ∈ st.processed_plays := by simpa using h
  simp [queue_high_impact_play, hmem]

/-- Claim C2 (amended, witness): a state that remembers `playA` rejects
a second enqueue of `playA`. -/
theorem queue_rejects_processed_id_witness :
    stRemembersA.processed_plays.contains (compositeId playA) = true ∧
    queue_high_impact_play stRemembersA playA [] 0.5 none "2025-07-01" 0 =
      (false, stRemembersA) :=
  ⟨by decide,
   queue_rejects_processed_id stRemembersA playA [] 0.5 none "2025-07-01" 0 (by decide)⟩

/-- Claim C2 (counterexample): with the processed-set at its cap of 100,
an enqueue of a fresh play evicts the 20 oldest-slice identifiers,
among them the previously recorded id of `playA`; the next call for
`playA` then succeeds and appends to the queue, so idempotent ingestion
does not hold for the whole process lifetime. -/
theorem processed_set_eviction_breaks_idempotence :
    stFullProcessed.processed_plays.contains (compositeId playA) = true ∧
    (queue_high_impact_play
      ((queue_high_impact_play stFullProcessed playB [] 0.5 none "2025-07-01" 0).2)
      playA [] 0.5 none "2025-07-01" 1).1 = true ∧
    (queue_high_impact_play
      ((queue_high_impact_play stFullProcessed playB [] 0.5 none "2025-07-01" 0).2)
      playA [] 0.5 none "2025-07-01" 1).2.play_queue.length =
      ((queue_high_impact_play stFullProcessed playB [] 0.5 none "2025-07-01" 0).2).play_queue.length + 1 := by
  refine ⟨by decide, by decide, by decide⟩

/-- Claim C8: a queue at capacity with no completed item and no item out
of attempts rejects the enqueue of a new, unprocessed play and leaves the
state (queue included) unchanged. -/
theorem enqueue_refused_when_full_no_evictable (st : TrackerState) (play : Play)
    (gi : List (String × String)) (score : ℚ) (ad : Option String)
    (nd : String) (now : Int)
    (hlen : st.play_queue.length = max_queue_size)
    (hposted : ∀ p ∈ st.play_queue, p.tweet_posted = false)
    (hatt : ∀ p ∈ st.play_queue, p.gif_attempts < p.max_attempts)
    (hproc : st.processed_plays.contains (compositeId play) = false) :
    queue_high_impact_play st play gi score ad nd now = (false, st) := by
  have hfilter1 : st.play_queue.filter (fun p => p.tweet_posted) = [] :=
    List.filter_eq_nil_iff.mpr (fun p hp => by simp [hposted p hp])
  have hfilter2 : st.play_queue.filter (fun p => p.gif_attempts ≥ p.max_attempts) = [] :=
    List.filter_eq_nil_iff.mpr (fun p hp => by
      simpa using Nat.not_le.mpr (hatt p hp))
  have hevict : evictForCapacity st.play_queue = none := by
    unfold evictForCapacity
    rw [if_pos (le_of_eq hlen.symm), hfilter1, hfilter2]
    rfl
  have hnmem : compositeId play ∉ st.processed_plays := by
    simpa using hproc
  simp [queue_high_impact_play, hnmem, hevict]

/-- Claim C8 (witness): ten pending items, none completed, none out of
attempts; the enqueue of `playA` is refused. -/
theorem enqueue_refused_when_full_no_evictable_witness :
    stFullPending.play_queue.length = max_queue_size ∧
    (∀ p ∈ stFullPending.play_queue, p.tweet_posted = false) ∧
    (∀ p ∈ stFullPending.play_queue, p.gif_attempts < p.max_attempts) ∧
    stFullPending.processed_plays.contains (compositeId playA) = false ∧
    queue_high_impact_play stFullPending playA [] 0.5 none "2025-07-01" 0 =
      (false, stFullPending) :=
  ⟨by decide, by decide, by decide, by decide,
   enqueue_refused_when_full_no_evictable stFullPending playA [] 0.5 none "2025-07-01" 0
     (by decide) (by decide) (by decide) (by decide)⟩

/-- One Enricher cycle never pushes the attempt counter past the item
maximum, and never touches the maximum itself. -/
lemma process_step_bound (item : QueuedPlay) (now : Int) (g : Bool)
    (path : String) (p : Bool)
    (h : item.gif_attempts ≤ item.max_attempts) :
    (process_queue_item item now g path p).1.gif_attempts ≤
      (process_queue_item item now g path p).1.max_attempts ∧
    (process_queue_item item now g path p).1.max_attempts = item.max_attempts := by
  unfold process_queue_item
  split_ifs <;> simp_all <;> omega

/-- Claim C6: over any sequence of Enricher cycles the attempt
counter never exceeds its configured maximum, and an item whose counter
has reached the maximum is returned unchanged with no GIF or publish
attempt made, on every cycle. -/
theorem gif_attempts_bounded (item : QueuedPlay) (cycles : List CycleInput)
    (h : item.gif_attempts ≤ item.max_attempts) :
    ((runCycles item cycles).gif_attempts ≤ (runCycles item cycles).max_attempts ∧
     (runCycles item cycles).max_attempts = item.max_attempts) ∧
    (item.gif_attempts = item.max_attempts →
      ∀ (now : Int) (g : Bool) (path : String) (p : Bool),
        process_queue_item item now g path p = (item, false)) := by
  constructor
  · induction cycles generalizing item with
    | nil => exact ⟨h, rfl⟩
    | cons c cs ih =>
      simp only [runCycles, List.foldl_cons]
      have hstep := process_step_bound item c.now c.gifOk c.gifPath c.postOk h
      have hrec := ih _ hstep.1
      exact ⟨hrec.1, hrec.2.trans hstep.2⟩
  · intro hmax now g path p
    unfold process_queue_item
    split_ifs with h1 h2 h3 h4 h5 <;> first
      | rfl
      | exact absurd (le_of_eq hmax.symm) h3

/-- Claim C6 (witness): an item with all five attempts used stays at five
attempts over a cycle and is skipped with no attempt made. -/
theorem gif_attempts_bounded_witness :
    exhaustedItem.gif_attempts ≤ exhaustedItem.max_attempts ∧
    (runCycles exhaustedItem [sampleCycle]).gif_attempts ≤
      (runCycles exhaustedItem [sampleCycle]).max_attempts ∧
    process_queue_item exhaustedItem 0 false "out.gif" false = (exhaustedItem, false) :=
  ⟨by decide,
   ((gif_attempts_bounded exhaustedItem [sampleCycle] (by decide)).1).1,
   (gif_attempts_bounded exhaustedItem [sampleCycle] (by decide)).2 (by decide)
     0 false "out.gif" false⟩

/-- Claim C7: serializing the queue and processed-set with `save_queue`
and reloading with `load_queue` (item-wise, `QueuedPlay.from_dict` after
`QueuedPlay.to_dict`) reproduces an equivalent state: the same play
identifiers, the same attempt counters, the same `gif_created` and
`tweet_posted` flags for every item, and the same processed-set
membership. -/
theorem save_load_roundtrip (st : TrackerState) (nowIso : String) :
    (load_queue (save_queue st nowIso)).play_queue.map (fun p => p.play_id) =
      st.play_queue.map (fun p => p.play_id) ∧
    (load_queue (save_queue st nowIso)).play_queue.map (fun p => p.gif_attempts) =
      st.play_queue.map (fun p => p.gif_attempts) ∧
    (load_queue (save_queue st nowIso)).play_queue.map (fun p => p.gif_created) =
      st.play_queue.map (fun p => p.gif_created) ∧
    (load_queue (save_queue st nowIso)).play_queue.map (fun p => p.tweet_posted) =
      st.play_queue.map (fun p => p.tweet_posted) ∧
    ∀ pid : String,
      (load_queue (save_queue st nowIso)).processed_plays.contains pid =
        st.processed_plays.contains pid := by
  refine ⟨?_, ?_, ?_, ?_, fun pid => rfl⟩ <;>
    simp only [load_queue, save_queue, List.map_map] <;> rfl
